import Mathlib

/-!
Verification of the device-telemetry ingestion and simulation pipeline
(Observability-Monitoring): a shallow embedding of the bounded per-device
log buffer, the batch drain, the anomaly-generator state machine, the
severity/event catalog, the temperature-to-severity thresholds, the
metric cache, and the batch-log / metric ingestion handlers, together
with theorems settling the specified properties.

Conventions of the embedding:
- Go float64 values are modelled as rationals; Go int64 as Int.
- Go maps are modelled as functions to Option; map assignment is
  pointwise functional update.
- Randomness (normal / uniform draws) is modelled by passing each drawn
  value as an explicit argument.
- Wire transport, CBOR decoding and stdlib time formatting are external
  collaborators: a decoded body is an Option (none = decode failure) and
  the RFC3339 formatter is an abstract parameter fmt : Int -> String.
-/

namespace ObsMon

/-! ## Bounded log buffer (client, LogSender.AddLog / SendBatch) -/

/-- A compact log entry [event_id, unix_timestamp], Go type [2]int64. -/
abbrev LogEntryCompact := Int × Int

/-- Embedding of LogSender.AddLog: append the entry, then keep only the
last 200 entries when the cache exceeds 200. -/
def AddLog (cache : List LogEntryCompact) (entry : LogEntryCompact) :
    List LogEntryCompact :=
  let c := cache ++ [entry]
  if c.length > 200 then c.drop (c.length - 200) else c

/-- The last n elements of a list, in order: the formal reading of
"the n most recently appended entries in original relative order". -/
def takeLast {α : Type} (n : Nat) (l : List α) : List α :=
  l.drop (l.length - n)

theorem takeLast_of_le {α : Type} (n : Nat) (l : List α) (h : l.length ≤ n) :
    takeLast n l = l := by
  unfold takeLast
  have : l.length - n = 0 := Nat.sub_eq_zero_of_le h
  rw [this, List.drop_zero]

theorem takeLast_length_le {α : Type} (n : Nat) (l : List α) :
    (takeLast n l).length ≤ n := by
  unfold takeLast
  rw [List.length_drop]
  omega

/-- Re-taking the last n elements after appending on the right absorbs an
inner takeLast. -/
theorem takeLast_append {α : Type} (n : Nat) (x y : List α) :
    takeLast n (takeLast n x ++ y) = takeLast n (x ++ y) := by
  by_cases hx : x.length ≤ n
  · rw [takeLast_of_le n x hx]
  · push_neg at hx
    unfold takeLast
    have hk : x.length - n ≤ x.length := Nat.sub_le _ _
    rw [← List.drop_append_of_le_length hk, List.drop_drop]
    congr 1
    simp only [List.length_drop, List.length_append]
    omega

theorem AddLog_eq_takeLast (cache : List LogEntryCompact)
    (entry : LogEntryCompact) (h : cache.length ≤ 200) :
    AddLog cache entry = takeLast 200 (cache ++ [entry]) := by
  unfold AddLog takeLast
  by_cases hlen : (cache ++ [entry]).length > 200
  · simp only [hlen, if_true]
  · simp only [hlen, if_false]
    have : (cache ++ [entry]).length - 200 = 0 := by
      simp only [List.length_append, List.length_singleton] at *
      omega
    rw [this, List.drop_zero]

theorem foldl_AddLog (es : List LogEntryCompact) :
    ∀ cache : List LogEntryCompact, cache.length ≤ 200 →
    List.foldl AddLog cache es = takeLast 200 (cache ++ es) := by
  induction es with
  | nil =>
    intro cache h
    simp only [List.foldl_nil, List.append_nil]
    exact (takeLast_of_le 200 cache h).symm
  | cons e tl ih =>
    intro cache h
    have hlen : (AddLog cache e).length ≤ 200 := by
      rw [AddLog_eq_takeLast cache e h]
      exact takeLast_length_le _ _
    rw [List.foldl_cons, ih (AddLog cache e) hlen,
        AddLog_eq_takeLast cache e h, takeLast_append]
    simp only [List.append_assoc, List.singleton_append]

/-- C1: for every sequence of appends into an initially empty per-device
log buffer, the buffer length never exceeds 200, and the buffer contents
are exactly the (up to) 200 most recently appended entries in their
original relative order — the suffix of the append sequence — so on
overflow the oldest entries are discarded, never the newest. -/
theorem addLog_capacity_and_recency (es : List LogEntryCompact) :
    (List.foldl AddLog [] es).length ≤ 200 ∧
    List.foldl AddLog [] es = es.drop (es.length - 200) := by
  have h := foldl_AddLog es [] (by simp)
  simp only [List.nil_append] at h
  refine ⟨?_, h⟩
  rw [h]
  exact takeLast_length_le 200 es

/-! ## Batch drain (client, LogSender.SendBatch) -/

/-- Embedding of the drain step of LogSender.SendBatch: under the cache
lock, if the cache is empty nothing is drained (and no send happens);
if the cache holds more than batchSize entries the first batchSize are
copied out and removed; otherwise the whole cache is taken and the cache
becomes empty. Returns (drained entries, remaining cache). -/
def SendBatchDrain (cache : List LogEntryCompact) (batchSize : Nat) :
    List LogEntryCompact × List LogEntryCompact :=
  if cache.length = 0 then ([], cache)
  else if cache.length > batchSize then
    (cache.take batchSize, cache.drop batchSize)
  else (cache, [])

theorem SendBatchDrain_eq (cache : List LogEntryCompact) (n : Nat) :
    SendBatchDrain cache n = (cache.take n, cache.drop n) := by
  unfold SendBatchDrain
  by_cases h0 : cache.length = 0
  · have : cache = [] := List.length_eq_zero.mp h0
    subst this
    simp
  · simp only [h0, if_false]
    by_cases h1 : cache.length > n
    · simp only [h1, if_true]
    · push_neg at h1
      simp only [h1.not_lt, if_false]
      rw [List.take_of_length_le h1, List.drop_eq_nil_of_le h1]

/-- C3: a drain with bound batchSize removes and returns exactly the
oldest min(batchSize, length) entries in FIFO (append) order — the
returned batch is the length-min(batchSize, length) prefix of the buffer
and the remaining buffer is the corresponding suffix; an empty buffer
yields an empty batch and an unchanged (empty) buffer; and the entries
returned by two consecutive drains concatenate to a prefix of the
original buffer, hence occupy disjoint positions (no overlap), because
drained entries are removed. -/
theorem sendBatchDrain_spec (cache : List LogEntryCompact) (n : Nat) :
    (SendBatchDrain cache n).1 = cache.take n ∧
    (SendBatchDrain cache n).2 = cache.drop n ∧
    (SendBatchDrain cache n).1.length = min n cache.length ∧
    (SendBatchDrain cache n).1 ++ (SendBatchDrain cache n).2 = cache ∧
    (cache = [] → SendBatchDrain cache n = ([], cache)) ∧
    (SendBatchDrain cache n).1 ++
      (SendBatchDrain (SendBatchDrain cache n).2 n).1 <+: cache := by
  rw [SendBatchDrain_eq, SendBatchDrain_eq]
  refine ⟨rfl, rfl, by simp [List.length_take], List.take_append_drop n cache,
    ?_, ?_⟩
  · intro h
    subst h
    simp [SendBatchDrain]
  · simp only
    rw [← List.take_add]
    exact ⟨cache.drop (n + n), List.take_append_drop (n + n) cache⟩

/-- Witness for sendBatchDrain_spec: at a concrete empty buffer the
empty-buffer clause applies and every conjunct evaluates. -/
theorem sendBatchDrain_spec_witness :
    SendBatchDrain ([] : List LogEntryCompact) 3 = ([], []) :=
  (sendBatchDrain_spec [] 3).2.2.2.2.1 rfl

/-! ## Anomaly generator (client, MetricSender.GenerateMetrics).
Times and durations are rationals (Go time.Time / time.Duration);
each Rand() draw is an explicit argument. -/

/-- Embedding of clamp: restrict a value to the provided bounds. -/
def clamp (val lo hi : ℚ) : ℚ :=
  if val < lo then lo else if val > hi then hi else val

/-- Anomaly-simulation fields of MetricSender. -/
structure AnomalyState where
  anomalyStartTime : ℚ
  anomalyDuration : ℚ
  anomalyHoldDuration : ℚ
  anomalyActive : Bool
  baseTemp : ℚ

/-- The telemetry record produced by a device (variant A schema). -/
structure Metrics where
  DeviceID : String
  Timestamp : ℚ
  CPUPercent : ℚ
  MemUsedMB : ℚ
  TempC : ℚ
  DiskUsagePercent : ℚ
  DiskReadMBps : ℚ
  DiskWriteMBps : ℚ

/-- One normal draw per metric distribution used by GenerateMetrics. -/
structure Draws where
  cpu : ℚ
  mem : ℚ
  temp : ℚ
  diskUsage : ℚ
  diskRead : ℚ
  diskWrite : ℚ

/-- Embedding of the temperature branch of GenerateMetrics: when the
anomaly is active, compare elapsed against ramp plus hold; past the total
the anomaly deactivates and a clamped normal draw is produced; within the
ramp the output interpolates linearly from baseTemp toward 100; between
ramp and total the output holds at 100. When idle, a clamped normal draw
is produced. Returns the updated state and the temperature. -/
def generateTemp (s : AnomalyState) (now : ℚ) (tempDraw : ℚ) :
    AnomalyState × ℚ :=
  if s.anomalyActive then
    let elapsed := now - s.anomalyStartTime
    let totalDuration := s.anomalyDuration + s.anomalyHoldDuration
    if elapsed > totalDuration then
      ({ s with anomalyActive := false }, clamp tempDraw 30 65)
    else
      let maxTemp : ℚ := 100
      if elapsed ≤ s.anomalyDuration then
        (s, s.baseTemp + (elapsed / s.anomalyDuration) * (maxTemp - s.baseTemp))
      else
        (s, maxTemp)
  else
    (s, clamp tempDraw 30 65)

/-- Embedding of MetricSender.GenerateMetrics: the temperature comes from
the anomaly state machine, every other field is an independent draw
clamped to its declared range. Returns the updated state and the record. -/
def GenerateMetrics (s : AnomalyState) (deviceID : String) (now : ℚ)
    (d : Draws) : AnomalyState × Metrics :=
  let st := generateTemp s now d.temp
  (st.1,
   { DeviceID := deviceID
     Timestamp := now
     CPUPercent := clamp d.cpu 0 100
     MemUsedMB := clamp d.mem 0 4096
     TempC := st.2
     DiskUsagePercent := clamp d.diskUsage 0 100
     DiskReadMBps := clamp d.diskRead 0 10
     DiskWriteMBps := clamp d.diskWrite 0 10 })

theorem generateTemp_ramp (s : AnomalyState) (now tempDraw : ℚ)
    (hact : s.anomalyActive = true) (hhold : 0 ≤ s.anomalyHoldDuration)
    (hramp : now - s.anomalyStartTime ≤ s.anomalyDuration) :
    generateTemp s now tempDraw =
      (s, s.baseTemp + ((now - s.anomalyStartTime) / s.anomalyDuration) *
        (100 - s.baseTemp)) := by
  unfold generateTemp
  rw [hact]
  simp only [if_true]
  have h1 : ¬(now - s.anomalyStartTime >
      s.anomalyDuration + s.anomalyHoldDuration) := by
    push_neg
    linarith
  rw [if_neg h1, if_pos hramp]

/-- C2: while the anomaly is Active (ramp duration positive, hold
duration nonnegative, base value below the 100 ceiling) and with
elapsed = now − startTime: (i) during the ramp (0 ≤ elapsed ≤
rampDuration) the generated temperature is exactly baseValue +
(elapsed / rampDuration) · (100 − baseValue) and the state stays Active;
(ii) the ramp output is strictly monotone in elapsed over the ramp
window; (iii) in the hold window (rampDuration < elapsed ≤ rampDuration
+ holdDuration) the temperature is exactly the ceiling 100; (iv) when
elapsed is strictly past rampDuration + holdDuration the generator
returns to Idle (anomalyActive becomes false) and that same tick outputs
the Idle-phase sample clamp(draw, 30, 65). -/
theorem anomaly_trajectory (s : AnomalyState) (deviceID : String)
    (now₁ now₂ : ℚ) (d : Draws)
    (hact : s.anomalyActive = true)
    (hdur : 0 < s.anomalyDuration)
    (hhold : 0 ≤ s.anomalyHoldDuration)
    (hbase : s.baseTemp < 100) :
    ((now₁ - s.anomalyStartTime ≤ s.anomalyDuration →
      (GenerateMetrics s deviceID now₁ d).2.TempC =
        s.baseTemp + ((now₁ - s.anomalyStartTime) / s.anomalyDuration) *
          (100 - s.baseTemp) ∧
      (GenerateMetrics s deviceID now₁ d).1.anomalyActive = true) ∧
     (now₁ < now₂ → now₂ - s.anomalyStartTime ≤ s.anomalyDuration →
      (GenerateMetrics s deviceID now₁ d).2.TempC <
        (GenerateMetrics s deviceID now₂ d).2.TempC) ∧
     (s.anomalyDuration < now₁ - s.anomalyStartTime →
      now₁ - s.anomalyStartTime ≤ s.anomalyDuration + s.anomalyHoldDuration →
      (GenerateMetrics s deviceID now₁ d).2.TempC = 100) ∧
     (s.anomalyDuration + s.anomalyHoldDuration < now₁ - s.anomalyStartTime →
      (GenerateMetrics s deviceID now₁ d).1.anomalyActive = false ∧
      (GenerateMetrics s deviceID now₁ d).2.TempC = clamp d.temp 30 65)) := by
  unfold GenerateMetrics
  refine ⟨?_, ?_, ?_, ?_⟩
  · intro h1
    rw [generateTemp_ramp s now₁ d.temp hact hhold h1]
    exact ⟨rfl, hact⟩
  · intro hlt h2
    have h1 : now₁ - s.anomalyStartTime ≤ s.anomalyDuration := by linarith
    rw [generateTemp_ramp s now₁ d.temp hact hhold h1,
        generateTemp_ramp s now₂ d.temp hact hhold h2]
    simp only
    have hdiv : (now₁ - s.anomalyStartTime) / s.anomalyDuration <
        (now₂ - s.anomalyStartTime) / s.anomalyDuration := by
      apply div_lt_div_of_pos_right _ hdur
      linarith
    have hpos : (0 : ℚ) < 100 - s.baseTemp := by linarith
    have := mul_lt_mul_of_pos_right hdiv hpos
    linarith
  · intro hlo hhi
    unfold generateTemp
    rw [hact]
    simp only [if_true]
    have h1 : ¬(now₁ - s.anomalyStartTime >
        s.anomalyDuration + s.anomalyHoldDuration) := by push_neg; exact hhi
    rw [if_neg h1, if_neg (by push_neg; linarith)]
  · intro hpast
    unfold generateTemp
    rw [hact]
    simp only [if_true]
    rw [if_pos hpast]
    exact ⟨rfl, rfl⟩

/-- Witness for anomaly_trajectory: a concrete active state (start 0,
ramp 4, hold 3, base 40) evaluated at concrete ticks exercises every
hypothesis: ramp formula at elapsed = 1, monotonicity between elapsed 1
and 2, ceiling at elapsed = 5, reset at elapsed = 8. -/
theorem anomaly_trajectory_witness :
    (GenerateMetrics ⟨0, 4, 3, true, 40⟩ "dev" 1 ⟨0, 0, 50, 0, 0, 0⟩).2.TempC
      = 40 + (1 / 4) * (100 - 40) ∧
    (GenerateMetrics ⟨0, 4, 3, true, 40⟩ "dev" 1 ⟨0, 0, 50, 0, 0, 0⟩).2.TempC
      < (GenerateMetrics ⟨0, 4, 3, true, 40⟩ "dev" 2 ⟨0, 0, 50, 0, 0, 0⟩).2.TempC ∧
    (GenerateMetrics ⟨0, 4, 3, true, 40⟩ "dev" 5 ⟨0, 0, 50, 0, 0, 0⟩).2.TempC
      = 100 ∧
    (GenerateMetrics ⟨0, 4, 3, true, 40⟩ "dev" 8 ⟨0, 0, 50, 0, 0, 0⟩).1.anomalyActive
      = false := by
  have h₁ := anomaly_trajectory ⟨0, 4, 3, true, 40⟩ "dev" 1 2
    ⟨0, 0, 50, 0, 0, 0⟩ rfl (by norm_num) (by norm_num) (by norm_num)
  have h₅ := anomaly_trajectory ⟨0, 4, 3, true, 40⟩ "dev" 5 6
    ⟨0, 0, 50, 0, 0, 0⟩ rfl (by norm_num) (by norm_num) (by norm_num)
  have h₈ := anomaly_trajectory ⟨0, 4, 3, true, 40⟩ "dev" 8 9
    ⟨0, 0, 50, 0, 0, 0⟩ rfl (by norm_num) (by norm_num) (by norm_num)
  refine ⟨?_, h₁.2.1 (by norm_num) (by norm_num),
    h₅.2.2.1 (by norm_num) (by norm_num), (h₈.2.2.2 (by norm_num)).1⟩
  have h := (h₁.1 (by norm_num)).1
  norm_num at h ⊢
  exact h

theorem clamp_mem (v lo hi : ℚ) (h : lo ≤ hi) :
    lo ≤ clamp v lo hi ∧ clamp v lo hi ≤ hi := by
  unfold clamp
  split_ifs with h1 h2 <;> constructor <;> linarith

/-- C9: clamp saturates into the closed interval [lo, hi] whenever
lo ≤ hi and is the identity on values already inside the interval;
consequently the clamped fields produced by GenerateMetrics stay in
their declared ranges for every random draw: cpu_percent in [0, 100],
mem_used_mb in [0, 4096] and disk_read_mbps in [0, 10]. -/
theorem clamp_spec (v lo hi : ℚ) (s : AnomalyState) (deviceID : String)
    (now : ℚ) (d : Draws) (h : lo ≤ hi) :
    (lo ≤ clamp v lo hi ∧ clamp v lo hi ≤ hi) ∧
    (lo ≤ v → v ≤ hi → clamp v lo hi = v) ∧
    (0 ≤ (GenerateMetrics s deviceID now d).2.CPUPercent ∧
      (GenerateMetrics s deviceID now d).2.CPUPercent ≤ 100) ∧
    (0 ≤ (GenerateMetrics s deviceID now d).2.MemUsedMB ∧
      (GenerateMetrics s deviceID now d).2.MemUsedMB ≤ 4096) ∧
    (0 ≤ (GenerateMetrics s deviceID now d).2.DiskReadMBps ∧
      (GenerateMetrics s deviceID now d).2.DiskReadMBps ≤ 10) := by
  have hcpu : (GenerateMetrics s deviceID now d).2.CPUPercent =
      clamp d.cpu 0 100 := rfl
  have hmem : (GenerateMetrics s deviceID now d).2.MemUsedMB =
      clamp d.mem 0 4096 := rfl
  have hread : (GenerateMetrics s deviceID now d).2.DiskReadMBps =
      clamp d.diskRead 0 10 := rfl
  refine ⟨clamp_mem v lo hi h, ?_, ?_, ?_, ?_⟩
  · intro hlo hhi
    unfold clamp
    split_ifs <;> linarith
  · rw [hcpu]; exact clamp_mem _ _ _ (by norm_num)
  · rw [hmem]; exact clamp_mem _ _ _ (by norm_num)
  · rw [hread]; exact clamp_mem _ _ _ (by norm_num)

/-- Witness for clamp_spec: at concrete inputs, an in-range value is
returned unchanged and the clamp stays within its bounds. -/
theorem clamp_spec_witness :
    clamp 55 0 100 = 55 ∧ 0 ≤ clamp 55 0 100 ∧ clamp 55 0 100 ≤ 100 := by
  have h := clamp_spec 55 0 100 ⟨0, 4, 3, false, 40⟩ "dev" 0
    ⟨0, 0, 0, 0, 0, 0⟩ (by norm_num)
  exact ⟨h.2.1 (by norm_num) (by norm_num), h.1.1, h.1.2⟩

/-! ## Temperature thresholds and severity catalog (server side) -/

/-- Embedding of tempToSeverityString: fixed temperature thresholds to a
severity string. -/
def tempToSeverityString (temp : ℚ) : String :=
  if temp < 75 then "INFO"
  else if temp < 85 then "WARNING"
  else if temp < 95 then "CRITICAL"
  else if temp ≤ 100 then "EMERGENCY"
  else "INFO"

/-- Embedding of tempToMessage: fixed temperature thresholds to a
human-readable message. -/
def tempToMessage (temp : ℚ) : String :=
  if temp < 75 then "Temperature is fine"
  else if temp < 85 then "Temperature rising – monitor closely"
  else if temp < 95 then "Critical temperature – action needed"
  else if temp ≤ 100 then "Emergency – device may fail"
  else "Temperature is fine"

/-- C6: the temperature-to-severity mapping partitions the line into
exactly these buckets: INFO below 75, WARNING on [75, 85), CRITICAL on
[85, 95), EMERGENCY on [95, 100], and INFO again above 100. -/
theorem tempToSeverity_buckets (t : ℚ) :
    (t < 75 → tempToSeverityString t = "INFO") ∧
    (75 ≤ t → t < 85 → tempToSeverityString t = "WARNING") ∧
    (85 ≤ t → t < 95 → tempToSeverityString t = "CRITICAL") ∧
    (95 ≤ t → t ≤ 100 → tempToSeverityString t = "EMERGENCY") ∧
    (100 < t → tempToSeverityString t = "INFO") := by
  unfold tempToSeverityString
  refine ⟨?_, ?_, ?_, ?_, ?_⟩ <;> intros <;> split_ifs <;>
    first | rfl | linarith

/-- Witness for tempToSeverity_buckets: a temperature of 90 is CRITICAL. -/
theorem tempToSeverity_buckets_witness :
    tempToSeverityString 90 = "CRITICAL" :=
  (tempToSeverity_buckets 90).2.2.1 (by norm_num) (by norm_num)

/-- Embedding of the custom slog severity levels (GCP-compatible). -/
def LevelDebug : Int := -4

/-- Embedding of slog.LevelInfo. -/
def LevelInfo : Int := 0

/-- Embedding of the custom NOTICE level. -/
def LevelNotice : Int := 1

/-- Embedding of slog.LevelWarn. -/
def LevelWarning : Int := 4

/-- Embedding of slog.LevelError. -/
def LevelError : Int := 8

/-- Embedding of the custom CRITICAL level. -/
def LevelCritical : Int := 10

/-- Embedding of the custom ALERT level. -/
def LevelAlert : Int := 12

/-- Embedding of the custom EMERGENCY level. -/
def LevelEmergency : Int := 14

/-- ASCII uppercasing of a string, modelling strings.ToUpper on the
severity strings in play. -/
def goToUpper (s : String) : String := String.mk (s.data.map Char.toUpper)

/-- Embedding of mapSeverityToLevel: uppercase the severity string and
dispatch on the eight known severities, defaulting to the INFO level. -/
def mapSeverityToLevel (sev : String) : Int :=
  if goToUpper sev = "DEBUG" then LevelDebug
  else if goToUpper sev = "INFO" then LevelInfo
  else if goToUpper sev = "NOTICE" then LevelNotice
  else if goToUpper sev = "WARNING" then LevelWarning
  else if goToUpper sev = "ERROR" then LevelError
  else if goToUpper sev = "CRITICAL" then LevelCritical
  else if goToUpper sev = "ALERT" then LevelAlert
  else if goToUpper sev = "EMERGENCY" then LevelEmergency
  else LevelInfo

/-- C8: the numeric levels assigned by mapSeverityToLevel are strictly
increasing along DEBUG < INFO < NOTICE < WARNING < ERROR < CRITICAL <
ALERT < EMERGENCY, and any string that is not (case-insensitively) one
of these eight severities is mapped to the INFO level. -/
theorem severity_levels_ordered :
    (mapSeverityToLevel "DEBUG" < mapSeverityToLevel "INFO" ∧
     mapSeverityToLevel "INFO" < mapSeverityToLevel "NOTICE" ∧
     mapSeverityToLevel "NOTICE" < mapSeverityToLevel "WARNING" ∧
     mapSeverityToLevel "WARNING" < mapSeverityToLevel "ERROR" ∧
     mapSeverityToLevel "ERROR" < mapSeverityToLevel "CRITICAL" ∧
     mapSeverityToLevel "CRITICAL" < mapSeverityToLevel "ALERT" ∧
     mapSeverityToLevel "ALERT" < mapSeverityToLevel "EMERGENCY") ∧
    ∀ s : String,
      goToUpper s ∉ (["DEBUG", "INFO", "NOTICE", "WARNING", "ERROR",
        "CRITICAL", "ALERT", "EMERGENCY"] : List String) →
      mapSeverityToLevel s = LevelInfo := by
  constructor
  · refine ⟨?_, ?_, ?_, ?_, ?_, ?_, ?_⟩ <;> decide
  · intro s h
    simp only [List.mem_cons, List.not_mem_nil, or_false, not_or] at h
    obtain ⟨h1, h2, h3, h4, h5, h6, h7, h8⟩ := h
    unfold mapSeverityToLevel
    rw [if_neg h1, if_neg h2, if_neg h3, if_neg h4, if_neg h5, if_neg h6,
      if_neg h7, if_neg h8]

/-- Witness for severity_levels_ordered: the unknown severity string
"boot" maps to the INFO level. -/
theorem severity_levels_ordered_witness :
    mapSeverityToLevel "boot" = LevelInfo :=
  severity_levels_ordered.2 "boot" (by decide)

/-! ## Metric cache (server side, last-write-wins per device) -/

/-- The global in-memory metric cache, a map from device id to the most
recent metric record, modelled as a function to Option. -/
def MetricCache : Type := String → Option Metrics

/-- Embedding of updateMetricCache: store the record under its device
id, overwriting any prior record for that device. -/
def updateMetricCache (cache : MetricCache) (m : Metrics) : MetricCache :=
  fun k => if k = m.DeviceID then some m else cache k

theorem foldl_update_other (d : String) (ms : List Metrics) :
    ∀ cache : MetricCache, (∀ m ∈ ms, m.DeviceID ≠ d) →
    (ms.foldl updateMetricCache cache) d = cache d := by
  induction ms with
  | nil => intro cache _; rfl
  | cons m tl ih =>
    intro cache h
    rw [List.foldl_cons, ih _ fun x hx => h x (List.mem_cons_of_mem m hx)]
    unfold updateMetricCache
    rw [if_neg fun he => h m (List.mem_cons_self m tl) he.symm]

/-- C5: the metric cache is last-write-wins per device: after put(d, s)
followed by any sequence of puts none of which targets device d, the
cache (as observed by the snapshot/export iteration) holds exactly s for
d; and in particular a put with temp 90 followed by a put with temp 50
for the same device leaves the second record (temp 50, not 90) as the
entry of that device. -/
theorem metricCache_last_write_wins (cache : MetricCache) (s : Metrics)
    (ms : List Metrics) (h : ∀ m ∈ ms, m.DeviceID ≠ s.DeviceID) :
    (ms.foldl updateMetricCache (updateMetricCache cache s)) s.DeviceID
      = some s ∧
    ∀ m₉₀ m₅₀ : Metrics, m₅₀.DeviceID = m₉₀.DeviceID →
      updateMetricCache (updateMetricCache cache m₉₀) m₅₀ m₉₀.DeviceID
        = some m₅₀ := by
  constructor
  · rw [foldl_update_other s.DeviceID ms _ h]
    unfold updateMetricCache
    rw [if_pos rfl]
  · intro m₉₀ m₅₀ hdev
    unfold updateMetricCache
    rw [if_pos hdev.symm]

/-- Witness for metricCache_last_write_wins: device d1 caches a record
with temp 90, then one with temp 50; the cache holds the temp-50 record. -/
theorem metricCache_last_write_wins_witness :
    updateMetricCache (updateMetricCache (fun _ => none)
        ⟨"d1", 0, 0, 0, 90, 0, 0, 0⟩) ⟨"d1", 0, 0, 0, 50, 0, 0, 0⟩ "d1"
      = some ⟨"d1", 0, 0, 0, 50, 0, 0, 0⟩ :=
  (metricCache_last_write_wins (fun _ => none) ⟨"d1", 0, 0, 0, 90, 0, 0, 0⟩
      [] (fun m hm => absurd hm (List.not_mem_nil m))).2
    ⟨"d1", 0, 0, 0, 90, 0, 0, 0⟩ ⟨"d1", 0, 0, 0, 50, 0, 0, 0⟩ rfl

/-! ## Severity/event catalog and batch-log ingestion handlers -/

/-- Embedding of the eventDefinitions catalog: small integer event ids
to (severity, message), identical in the client and both servers. -/
def eventDefinitions (id : Nat) : Option (String × String) :=
  match id with
  | 1 => some ("DEBUG", "Dispositivo in fase di inizializzazione")
  | 2 => some ("DEBUG", "Controllo stato rete")
  | 3 => some ("DEBUG", "Avvio modulo sensore")
  | 4 => some ("DEBUG", "Sincronizzazione orologio")
  | 5 => some ("INFO", "Avvio completato")
  | 6 => some ("INFO", "Temperatura normale")
  | 7 => some ("INFO", "CPU sotto soglia")
  | 8 => some ("INFO", "Heartbeat inviato")
  | 9 => some ("NOTICE", "Cambio configurazione")
  | 10 => some ("NOTICE", "Aggiornamento firmware disponibile")
  | 11 => some ("NOTICE", "Sensore temporaneamente inattivo")
  | 12 => some ("NOTICE", "Collegamento rete ristabilito")
  | 13 => some ("WARNING", "Temperatura elevata")
  | 14 => some ("WARNING", "Consumo CPU sopra la soglia")
  | 15 => some ("WARNING", "Batteria in esaurimento")
  | 16 => some ("WARNING", "Perdita pacchetti rilevata")
  | 17 => some ("ERROR", "Impossibile connettersi al server")
  | 18 => some ("ERROR", "Errore lettura sensore")
  | 19 => some ("ERROR", "Timeout nella risposta del server")
  | 20 => some ("ERROR", "Scrittura su memoria fallita")
  | 21 => some ("CRITICAL", "Perdita connessione permanente")
  | 22 => some ("CRITICAL", "Dati corrotti nella memoria")
  | 23 => some ("ALERT", "Accesso non autorizzato rilevato")
  | 24 => some ("ALERT", "Possibile attacco DoS in corso")
  | 25 => some ("EMERGENCY", "Sistema in stato critico - riavvio necessario")
  | 26 => some ("EMERGENCY", "Errore hardware irreversibile")
  | 27 => some ("EMERGENCY", "Guasto alimentazione principale")
  | _ => none

/-- A decoded batch-log request body: device id plus a sequence of
integer sequences, each expected to be an [event_id, timestamp] pair. -/
structure IncomingLogBatch where
  DeviceID : String
  Logs : List (List Int)

/-- A structured device-log record as emitted via slog.LogAttrs. -/
structure LogRecord where
  level : Int
  message : String
  device_id : String
  timestamp : String
deriving DecidableEq

/-- The per-entry outcome of the batch-log loop: an emitted record, a
skip warning for a malformed entry, or a skip warning for an unknown
event id. -/
inductive LogOutcome where
  | emitted (r : LogRecord)
  | warnInvalidEntry (entry : List Int)
  | warnUnknownEvent (id : Nat)
deriving DecidableEq

/-- Embedding of one iteration of the batch-log loop: entries that are
not exactly [eventID, timestamp] pairs are skipped with a warning; the
event id is converted to uint8 (reduction mod 256) and looked up in the
catalog; unknown ids are skipped with a warning; otherwise a structured
record is emitted with the severity-derived level, catalog message,
device id and formatted timestamp. fmt abstracts the stdlib RFC3339
formatter time.Unix(ts, 0).UTC().Format(time.RFC3339). -/
def processLogEntry (fmt : Int → String) (deviceID : String)
    (entry : List Int) : LogOutcome :=
  match entry with
  | [e, ts] =>
    match eventDefinitions (e % 256).toNat with
    | some dfn =>
      LogOutcome.emitted ⟨mapSeverityToLevel dfn.1, dfn.2, deviceID, fmt ts⟩
    | none => LogOutcome.warnUnknownEvent (e % 256).toNat
  | _ => LogOutcome.warnInvalidEntry entry

/-- CoAP response codes used by the handlers. -/
inductive CoapCode where
  | Created
  | Changed
  | BadRequest
deriving DecidableEq

/-- Embedding of handleBatchLog (HTTP server): a body that fails to
decode is answered 400 with no entry processed; otherwise every entry is
run through the batch-log loop and the response is 200. -/
def handleBatchLog (fmt : Int → String) (body : Option IncomingLogBatch) :
    Nat × List LogOutcome :=
  match body with
  | none => (400, [])
  | some batch => (200, batch.Logs.map (processLogEntry fmt batch.DeviceID))

/-- Embedding of handleCoapBatchLog (CoAP server): same loop, answering
BadRequest on decode failure and 2.01 Created on success. -/
def handleCoapBatchLog (fmt : Int → String)
    (body : Option IncomingLogBatch) : CoapCode × List LogOutcome :=
  match body with
  | none => (CoapCode.BadRequest, [])
  | some batch =>
    (CoapCode.Created, batch.Logs.map (processLogEntry fmt batch.DeviceID))

/-- C4: for every successfully decoded log batch, on both transports:
the handler answers a success code (HTTP 200 / CoAP Created) no matter
how many entries were skipped, and processes the entries in order, one
outcome per entry; each entry that is not a 2-element pair is skipped
with a warning; each pair whose (uint8-converted) event id is absent
from the catalog is skipped with a warning; every remaining pair emits
exactly one structured record carrying the device id, the formatted
timestamp, the catalog-derived severity level and the catalog message.
A body that fails to decode is answered with a client error (HTTP 400 /
CoAP BadRequest) before any entry is processed. -/
theorem batchLog_entry_processing (fmt : Int → String)
    (b : IncomingLogBatch) :
    (handleBatchLog fmt none = (400, []) ∧
     handleCoapBatchLog fmt none = (CoapCode.BadRequest, [])) ∧
    ((handleBatchLog fmt (some b)).1 = 200 ∧
     (handleCoapBatchLog fmt (some b)).1 = CoapCode.Created) ∧
    (handleBatchLog fmt (some b)).2 =
      b.Logs.map (processLogEntry fmt b.DeviceID) ∧
    (handleCoapBatchLog fmt (some b)).2 = (handleBatchLog fmt (some b)).2 ∧
    ∀ entry : List Int,
      (entry.length ≠ 2 →
        processLogEntry fmt b.DeviceID entry =
          LogOutcome.warnInvalidEntry entry) ∧
      ∀ e ts : Int, entry = [e, ts] →
        (eventDefinitions (e % 256).toNat = none →
          processLogEntry fmt b.DeviceID entry =
            LogOutcome.warnUnknownEvent (e % 256).toNat) ∧
        ∀ sev msg : String,
          eventDefinitions (e % 256).toNat = some (sev, msg) →
          processLogEntry fmt b.DeviceID entry =
            LogOutcome.emitted
              ⟨mapSeverityToLevel sev, msg, b.DeviceID, fmt ts⟩ := by
  refine ⟨⟨rfl, rfl⟩, ⟨rfl, rfl⟩, rfl, rfl, ?_⟩
  intro entry
  constructor
  · intro hlen
    rcases entry with _ | ⟨a, _ | ⟨c, _ | ⟨e, tl⟩⟩⟩
    · rfl
    · rfl
    · exact absurd rfl hlen
    · rfl
  · intro e ts hentry
    subst hentry
    constructor
    · intro hnone
      simp only [processLogEntry, hnone]
    · intro sev msg hsome
      simp only [processLogEntry, hsome]

/-- Witness for batchLog_entry_processing: in a concrete batch from
device d1, event id 5 emits the INFO record "Avvio completato", the
unknown id 99 is skipped, and a 3-element entry is skipped. -/
theorem batchLog_entry_processing_witness :
    processLogEntry (fun _ => "1970-01-01T00:00:00Z") "d1" [5, 1700000000]
      = LogOutcome.emitted ⟨mapSeverityToLevel "INFO", "Avvio completato",
          "d1", "1970-01-01T00:00:00Z"⟩ ∧
    processLogEntry (fun _ => "1970-01-01T00:00:00Z") "d1" [99, 1700000000]
      = LogOutcome.warnUnknownEvent 99 ∧
    processLogEntry (fun _ => "1970-01-01T00:00:00Z") "d1" [1, 2, 3]
      = LogOutcome.warnInvalidEntry [1, 2, 3] := by
  have h := batchLog_entry_processing (fun _ => "1970-01-01T00:00:00Z")
    ⟨"d1", [[5, 1700000000]]⟩
  refine ⟨((h.2.2.2.2 [5, 1700000000]).2 5 1700000000 rfl).2
    "INFO" "Avvio completato" (by decide), ?_, ?_⟩
  · have h99 := ((h.2.2.2.2 [99, 1700000000]).2 99 1700000000 rfl).1 (by decide)
    simpa using h99
  · exact (h.2.2.2.2 [1, 2, 3]).1 (by decide)

/-! ## Metric submission handlers (both transport variants) -/

/-- Geographic coordinates of a device (HTTP variant schema). -/
structure GeoPosition where
  Latitude : ℚ
  Longitude : ℚ
  Altitude : ℚ

/-- External environmental sensor readings (HTTP variant schema). -/
structure ExternalSensors where
  ThermometerC : ℚ
  BarometerHPa : ℚ
  HygrometerRH : ℚ
  AnemometerMPS : ℚ

/-- The telemetry record of the HTTP deployment variant (MCU and
environmental fields). -/
structure MetricsB where
  DeviceID : String
  GeoPosition : GeoPosition
  Timestamp : ℚ
  MCUUsagePercent : ℚ
  MCUTempC : ℚ
  ExternalSensors : ExternalSensors

/-- The metric cache of the HTTP deployment variant. -/
def MetricCacheB : Type := String → Option MetricsB

/-- Embedding of updateMetricCache in the HTTP server, over the HTTP
variant schema. -/
def updateMetricCacheB (cache : MetricCacheB) (m : MetricsB) :
    MetricCacheB :=
  fun k => if k = m.DeviceID then some m else cache k

/-- The structured record emitted by a metric submission handler:
severity-derived level, threshold message, device id and the
temperature value. -/
structure MetricLogRecord where
  level : Int
  message : String
  device_id : String
  value : ℚ

/-- Embedding of handleMetrics (HTTP server): on decode failure answer
400 leaving the cache untouched and emitting nothing; otherwise update
the cache, emit one record derived from the MCU temperature, and answer
202 Accepted. -/
def handleMetrics (cache : MetricCacheB) (body : Option MetricsB) :
    Nat × MetricCacheB × List MetricLogRecord :=
  match body with
  | none => (400, cache, [])
  | some m =>
    (202, updateMetricCacheB cache m,
     [⟨mapSeverityToLevel (tempToSeverityString m.MCUTempC),
       tempToMessage m.MCUTempC, m.DeviceID, m.MCUTempC⟩])

/-- Embedding of handleCoapMetrics (CoAP server): on decode failure
answer BadRequest leaving the cache untouched and emitting nothing;
otherwise update the cache, emit one record derived from temp_c, and
answer 2.04 Changed. -/
def handleCoapMetrics (cache : MetricCache) (body : Option Metrics) :
    CoapCode × MetricCache × List MetricLogRecord :=
  match body with
  | none => (CoapCode.BadRequest, cache, [])
  | some m =>
    (CoapCode.Changed, updateMetricCache cache m,
     [⟨mapSeverityToLevel (tempToSeverityString m.TempC),
       tempToMessage m.TempC, m.DeviceID, m.TempC⟩])

/-- A 2xx HTTP status, the success class (the HTTP handlers answer
200 OK and 202 Accepted). -/
def isHttpSuccess (code : Nat) : Prop := 200 ≤ code ∧ code < 300

/-- A CoAP success code of the created/changed kind. -/
def isCoapSuccess (code : CoapCode) : Prop :=
  code = CoapCode.Created ∨ code = CoapCode.Changed

/-- C7: for both submission endpoints on either transport variant,
every decodable body is answered with a success status of the
created/changed kind (HTTP 200 for the log batch and 202 for the
metric, CoAP 2.01 Created and 2.04 Changed), and every non-decodable
body is answered with a bad-request status (HTTP 400 / CoAP BadRequest)
while the metric cache is left unchanged and no log record is emitted. -/
theorem endpoint_status_codes (fmt : Int → String) (b : IncomingLogBatch)
    (cacheA : MetricCache) (cacheB : MetricCacheB) (mA : Metrics)
    (mB : MetricsB) :
    ((handleBatchLog fmt (some b)).1 = 200 ∧
     isHttpSuccess (handleBatchLog fmt (some b)).1) ∧
    ((handleMetrics cacheB (some mB)).1 = 202 ∧
     isHttpSuccess (handleMetrics cacheB (some mB)).1) ∧
    ((handleCoapBatchLog fmt (some b)).1 = CoapCode.Created ∧
     isCoapSuccess (handleCoapBatchLog fmt (some b)).1) ∧
    ((handleCoapMetrics cacheA (some mA)).1 = CoapCode.Changed ∧
     isCoapSuccess (handleCoapMetrics cacheA (some mA)).1) ∧
    handleBatchLog fmt none = (400, []) ∧
    handleMetrics cacheB none = (400, cacheB, []) ∧
    handleCoapBatchLog fmt none = (CoapCode.BadRequest, []) ∧
    handleCoapMetrics cacheA none = (CoapCode.BadRequest, cacheA, []) := by
  exact ⟨⟨rfl, by norm_num [isHttpSuccess, handleBatchLog]⟩,
    ⟨rfl, by norm_num [isHttpSuccess, handleMetrics]⟩,
    ⟨rfl, Or.inl rfl⟩, ⟨rfl, Or.inr rfl⟩, rfl, rfl, rfl, rfl⟩

/-- C10: the batch-log handlers truncate the event id of each entry to
8 bits before the catalog lookup — an entry behaves exactly as its
event id reduced mod 256 — so [261, ts] is processed as catalog id 5 and
emits the INFO record "Avvio completato" instead of being skipped as
unknown, and a negative id such as -251 wraps around to 5 likewise. -/
theorem eventId_truncated_mod256 (fmt : Int → String) (deviceID : String)
    (e ts : Int) :
    processLogEntry fmt deviceID [e, ts] =
      processLogEntry fmt deviceID [e % 256, ts] ∧
    (handleBatchLog fmt (some ⟨"d1", [[261, ts]]⟩)).2 =
      [LogOutcome.emitted ⟨LevelInfo, "Avvio completato", "d1", fmt ts⟩] ∧
    processLogEntry fmt deviceID [-251, ts] =
      LogOutcome.emitted
        ⟨LevelInfo, "Avvio completato", deviceID, fmt ts⟩ := by
  have hmod : e % 256 % 256 = e % 256 :=
    Int.emod_emod_of_dvd e (dvd_refl 256)
  refine ⟨?_, ?_, ?_⟩
  · simp only [processLogEntry, hmod]
  · show [processLogEntry fmt "d1" [261, ts]] = _
    simp only [processLogEntry]
    norm_num
    rfl
  · simp only [processLogEntry]
    norm_num
    rfl

end ObsMon
